import Mathlib

/-!
Verification of the request-authorization-and-validation pipeline of the
Firebase REST facade: response envelopes, auth middleware, role gate,
schema-validation middleware, sanitizer, sliding-window rate limiter, and
the Firestore service's delete/batch operations.  JavaScript objects are
embedded as a JSON-like value type; JS truthiness, `||` fallbacks, object
spread (later key wins) and single-pass global regex replacement are
modelled explicitly.
-/

/-- JSON-like runtime values, the shape of every request/response object. -/
inductive JValue where
  | null
  | bool (b : Bool)
  | num (n : Int)
  | str (s : String)
  | arr (elems : List JValue)
  | obj (fields : List (String × JValue))

/-- Lookup of a key in an object literal's field list; a later duplicate key
overrides an earlier one, as in a JS object literal with spreads. -/
def lookupLast (fields : List (String × JValue)) (key : String) : Option JValue :=
  fields.foldl (fun acc f => if f.1 = key then some f.2 else acc) none

/-- Property access `v[key]` on an object; `none` plays undefined. -/
def objGet : JValue → String → Option JValue
  | .obj fields, key => lookupLast fields key
  | _, _ => none

/-- Property access defaulting to null/undefined as a value. -/
def jGetD (v : JValue) (key : String) : JValue :=
  (objGet v key).getD JValue.null

/-- Whether a field list carries a key at all. -/
def hasKey (fields : List (String × JValue)) (key : String) : Bool :=
  fields.any (fun f => f.1 = key)

/-- JS truthiness of a value. -/
def jsTruthy : JValue → Bool
  | .null => false
  | .bool b => b
  | .num n => n != 0
  | .str s => s != ""
  | .arr _ => true
  | .obj _ => true

/-- The JS idiom `s || default` for an optional string field. -/
def jsOrStr (v : Option String) (d : String) : String :=
  match v with
  | some s => if s = "" then d else s
  | none => d

/-- A single quote character, used inside interpolated messages. -/
def quoteCh : String := String.singleton (Char.ofNat 39)

/-- Fields contributed by `...(timing && { timing: { duration, unit: 'ms' } })`:
present only when `timing` is non-null and non-zero (JS truthiness). -/
def timingFields (timing : Option Int) : List (String × JValue) :=
  match timing with
  | some t => if t != 0 then
      [("timing", JValue.obj [("duration", JValue.num t), ("unit", JValue.str ("ms"))])]
    else []
  | none => []

/-- FirebaseResponse.success from firebase-response: `{ success: true, message,
timestamp, ...(data && {data}), ...(timing && {timing}), ...(meta && {meta}) }`. -/
def FirebaseResponse.success (data : JValue) (message : String) (timing : Option Int)
    (meta : List (String × JValue)) (ts : String) : JValue :=
  JValue.obj
    ([("success", JValue.bool true), ("message", JValue.str message),
      ("timestamp", JValue.str ts)]
     ++ (if jsTruthy data then [("data", data)] else [])
     ++ timingFields timing
     ++ (if meta.length != 0 then [("meta", JValue.obj meta)] else []))

/-- FirebaseResponse.error: `{ success: false, error: errorInfo, timestamp }`
with `errorInfo = { message: error.message || default, code: error.code ||
UNKNOWN_ERROR, operation, timestamp, ...(timing), ...(dev && {stack, details}),
...additionalContext }`. -/
def FirebaseResponse.error (errMessage errCode : Option String) (operation : String)
    (additionalContext : List (String × JValue)) (timing : Option Int)
    (isDev : Bool) (stack details : JValue) (ts : String) : JValue :=
  let errorInfo : List (String × JValue) :=
    [("message", JValue.str (jsOrStr errMessage ("Unknown error occurred"))),
     ("code", JValue.str (jsOrStr errCode ("UNKNOWN_ERROR"))),
     ("operation", JValue.str operation),
     ("timestamp", JValue.str ts)]
    ++ timingFields timing
    ++ (if isDev then [("stack", stack), ("details", details)] else [])
    ++ additionalContext
  JValue.obj
    [("success", JValue.bool false), ("error", JValue.obj errorInfo),
     ("timestamp", JValue.str ts)]

/-- FirebaseResponse.validation: `{ success: false, message, errors:
Array.isArray(errors) ? errors : [errors], timestamp, type: VALIDATION_ERROR }`.
Note there is no `error` object in this envelope. -/
def FirebaseResponse.validation (errors : JValue) (message : String) (ts : String) : JValue :=
  let arrayified : JValue :=
    match errors with
    | .arr xs => .arr xs
    | v => .arr [v]
  JValue.obj
    [("success", JValue.bool false), ("message", JValue.str message),
     ("errors", arrayified), ("timestamp", JValue.str ts),
     ("type", JValue.str ("VALIDATION_ERROR"))]

/-- FirebaseResponse.unauthorized: `{ success: false, message, error: { code,
type: AUTHENTICATION_ERROR, timestamp }, timestamp }`. -/
def FirebaseResponse.unauthorized (message code ts : String) : JValue :=
  JValue.obj
    [("success", JValue.bool false), ("message", JValue.str message),
     ("error", JValue.obj
       [("code", JValue.str code),
        ("type", JValue.str ("AUTHENTICATION_ERROR")),
        ("timestamp", JValue.str ts)]),
     ("timestamp", JValue.str ts)]

/-- FirebaseResponse.forbidden: same shape with type AUTHORIZATION_ERROR. -/
def FirebaseResponse.forbidden (message code ts : String) : JValue :=
  JValue.obj
    [("success", JValue.bool false), ("message", JValue.str message),
     ("error", JValue.obj
       [("code", JValue.str code),
        ("type", JValue.str ("AUTHORIZATION_ERROR")),
        ("timestamp", JValue.str ts)]),
     ("timestamp", JValue.str ts)]

/-- FirebaseResponse.notFound: message is interpolated from resource and
identifier; the error object carries code NOT_FOUND and type RESOURCE_ERROR. -/
def FirebaseResponse.notFound (resource : String) (identifier : Option String)
    (ts : String) : JValue :=
  let message :=
    match identifier with
    | some i => resource ++ " with identifier " ++ quoteCh ++ i ++ quoteCh ++ " not found"
    | none => resource ++ " not found"
  JValue.obj
    [("success", JValue.bool false), ("message", JValue.str message),
     ("error", JValue.obj
       [("code", JValue.str ("NOT_FOUND")),
        ("type", JValue.str ("RESOURCE_ERROR")),
        ("resource", JValue.str resource),
        ("identifier", match identifier with | some i => JValue.str i | none => JValue.null),
        ("timestamp", JValue.str ts)]),
     ("timestamp", JValue.str ts)]

/-- The JS idiom `v || default` on an optional object field. -/
def jsOrV (v : Option JValue) (d : JValue) : JValue :=
  match v with
  | some x => if jsTruthy x then x else d
  | none => d

/-- FirebaseResponse.paginated: `{ success: true, message, data, pagination:
{ currentPage, limit, total, hasMore, ...pagination }, timestamp }`. -/
def FirebaseResponse.paginated (data : List JValue) (pagination : List (String × JValue))
    (message : String) (ts : String) : JValue :=
  JValue.obj
    [("success", JValue.bool true), ("message", JValue.str message),
     ("data", JValue.arr data),
     ("pagination", JValue.obj
       ([("currentPage", jsOrV (lookupLast pagination ("page")) (JValue.num 1)),
         ("limit", jsOrV (lookupLast pagination ("limit")) (JValue.num 20)),
         ("total", jsOrV (lookupLast pagination ("total")) (JValue.num data.length)),
         ("hasMore", jsOrV (lookupLast pagination ("hasMore")) (JValue.bool false))]
        ++ pagination)),
     ("timestamp", JValue.str ts)]

/-- Two-decimal percentage string for `summary.successRate`; decimal stand-in
for the JS float `((s / t) * 100).toFixed(2) + '%'`. -/
def rateString (s t : Nat) : String :=
  if t = 0 then "NaN%"
  else
    let centi := (s * 10000 + t / 2) / t
    toString (centi / 100) ++ "." ++ (if centi % 100 < 10 then "0" else "")
      ++ toString (centi % 100) ++ "%"

/-- FirebaseResponse.batch: filters results on the truthiness of their
`success` field; the top-level `success` is `failed.length === 0`. -/
def FirebaseResponse.batch (results : List JValue) (operation : String)
    (ts : String) : JValue :=
  let successful := results.filter (fun r => jsTruthy (jGetD r ("success")))
  let failed := results.filter (fun r => !(jsTruthy (jGetD r ("success"))))
  JValue.obj
    [("success", JValue.bool (failed.length == 0)),
     ("message", JValue.str (operation ++ " completed: " ++ toString successful.length
       ++ " successful, " ++ toString failed.length ++ " failed")),
     ("summary", JValue.obj
       [("total", JValue.num results.length),
        ("successful", JValue.num successful.length),
        ("failed", JValue.num failed.length),
        ("successRate", JValue.str (rateString successful.length results.length))]),
     ("results", JValue.arr results),
     ("timestamp", JValue.str ts)]

/-- FirebaseResponses.auth.invalidToken from firebase-response. -/
def FirebaseResponses.auth.invalidToken (ts : String) : JValue :=
  FirebaseResponse.unauthorized ("Invalid or expired token") ("INVALID_TOKEN") ts

/-- FirebaseResponses.auth.missingToken from firebase-response. -/
def FirebaseResponses.auth.missingToken (ts : String) : JValue :=
  FirebaseResponse.unauthorized ("Authorization token required") ("MISSING_TOKEN") ts

/-- FirebaseResponses.auth.tokenVerified from firebase-response. -/
def FirebaseResponses.auth.tokenVerified (decoded : JValue) (timing : Int)
    (ts : String) : JValue :=
  FirebaseResponse.success decoded ("Token verified successfully") (some timing) [] ts

/-- FirebaseResponses.document.deleted from firebase-response. -/
def FirebaseResponses.document.deleted (docId : String) (timing : Int)
    (ts : String) : JValue :=
  FirebaseResponse.success
    (JValue.obj [("id", JValue.str docId), ("deleted", JValue.bool true)])
    ("Document deleted successfully") (some timing) [] ts

/-- FirebaseResponses.document.notFound from firebase-response. -/
def FirebaseResponses.document.notFound (collection docId : String)
    (ts : String) : JValue :=
  FirebaseResponse.notFound ("Document") (some (collection ++ "/" ++ docId)) ts

/-- Path to the `code` of the nested `error` object of an envelope. -/
def errorCode (v : JValue) : Option JValue :=
  (objGet v ("error")).bind (fun e => objGet e ("code"))

/-- Path to the `type` of the nested `error` object of an envelope. -/
def errorType (v : JValue) : Option JValue :=
  (objGet v ("error")).bind (fun e => objGet e ("type"))

/-- Outcome of one Express middleware invocation: either call `next()` with
the value attached to `req.user`, or respond with a status and a body. -/
inductive MwResult where
  | next (user : JValue)
  | respond (status : Nat) (body : JValue)

/-- State of createFirebaseRateLimit's `requests` Map: insertion-ordered
key/timestamp-list pairs.  Times are epoch milliseconds. -/
abbrev RLState := List (String × List Int)

/-- The per-request sweep over all map entries: drop timestamps at or before
`windowStart`, deleting entries whose filtered list is empty. -/
def sweep (windowStart : Int) (st : RLState) : RLState :=
  st.filterMap (fun e =>
    let filtered := e.2.filter (fun t => windowStart < t)
    if filtered.isEmpty then none else some (e.1, filtered))

/-- `requests.get(key) || []`. -/
def mapGetD (st : RLState) (key : String) : List Int :=
  match st.find? (fun e => e.1 == key) with
  | some e => e.2
  | none => []

/-- `requests.set(key, v)`: update in place when present, append when new. -/
def mapSet (st : RLState) (key : String) (v : List Int) : RLState :=
  if st.any (fun e => e.1 == key) then
    st.map (fun e => if e.1 == key then (e.1, v) else e)
  else st ++ [(key, v)]

/-- `Math.ceil(x / 1000)` on an integer millisecond count, as the negated
floor division of the negation. -/
def jsCeil1000 (x : Int) : Int := -((-x) / 1000)

/-- Decision of the rate-limit middleware for one request. -/
inductive RLDecision where
  | pass
  | reject (status : Nat) (retryAfter : Int)

/-- One request through createFirebaseRateLimit's returned middleware: sweep
every entry, re-filter the key's list, reject with 429 and
`retryAfter = ceil((recent[0] + windowMs - now) / 1000)` when at or above the
maximum, else record `now`. -/
def rateLimitStep (maxRequests : Nat) (windowMs : Int) (st : RLState)
    (key : String) (now : Int) : RLDecision × RLState :=
  let windowStart := now - windowMs
  let st1 := sweep windowStart st
  let keyRequests := mapGetD st1 key
  let recent := keyRequests.filter (fun t => windowStart < t)
  if maxRequests ≤ recent.length then
    (RLDecision.reject 429 (jsCeil1000 (recent.headD 0 + windowMs - now)), st1)
  else
    (RLDecision.pass, mapSet st1 key (recent ++ [now]))

/-- A sequence of requests from one key at the given instants. -/
def rateLimitRun (maxRequests : Nat) (windowMs : Int) (key : String) :
    RLState → List Int → List RLDecision × RLState
  | st, [] => ([], st)
  | st, t :: ts =>
    let r := rateLimitStep maxRequests windowMs st key t
    let rest := rateLimitRun maxRequests windowMs key r.2 ts
    (r.1 :: rest.1, rest.2)

/-- Characters dropped by `.replace(/[<>]/g, '')`. -/
def removeAngle (s : List Char) : List Char :=
  s.filter (fun c => !(c == '<' || c == '>'))

/-- Case-insensitive literal match of `pat` (given lowercase) at the head. -/
def matchesCI (pat s : List Char) : Bool :=
  pat.isPrefixOf (s.map Char.toLower)

/-- Single left-to-right pass of `.replace(/pat/gi, '')`: on a match, resume
after the matched span of the original string; fuel is the input length,
enough since each step consumes at least one character. -/
def stripCIAux (pat : List Char) : Nat → List Char → List Char
  | 0, s => s
  | _ + 1, [] => []
  | fuel + 1, c :: rest =>
    if matchesCI pat (c :: rest) then
      stripCIAux pat fuel (List.drop (pat.length - 1) rest)
    else
      c :: stripCIAux pat fuel rest

/-- Global case-insensitive deletion of a literal pattern, one pass. -/
def stripCI (pat s : List Char) : List Char := stripCIAux pat s.length s

/-- `.trim()`: whitespace removed from both ends. -/
def jsTrim (s : List Char) : List Char :=
  (((s.dropWhile Char.isWhitespace).reverse).dropWhile Char.isWhitespace).reverse

/-- The string branch of sanitizeValue in sanitizeFirebaseData: strip angle
brackets, then `javascript:` (case-insensitive), then `data:`, then trim. -/
def sanitizeChars (s : List Char) : List Char :=
  jsTrim (stripCI (String.data ("data:")) (stripCI (String.data ("javascript:")) (removeAngle s)))

/-- String-level sanitizer. -/
def sanitizeString (s : String) : String := String.mk (sanitizeChars s.data)

/-- Whether `s` contains `pat` as a contiguous substring. -/
def containsSub (s pat : List Char) : Bool :=
  (List.range (s.length + 1)).any (fun i => pat.isPrefixOf (s.drop i))

/-- `authHeader.split('Bearer ')[1]`: for a header that starts with
`Bearer `, the segment strictly between the first separator and the next
occurrence (or the end). -/
def splitBearerSecond (s : List Char) : List Char :=
  match (List.range (s.length + 1)).find?
      (fun i => (String.data ("Bearer ")).isPrefixOf (s.drop i)) with
  | some i => s.take i
  | none => s

/-- The token carried by a `Bearer `-prefixed authorization header. -/
def bearerToken (h : String) : String :=
  String.mk (splitBearerSecond (h.data.drop 7))

/-- `authHeader.startsWith('Bearer ')`, expressed over the character list. -/
def startsWithBearer (h : String) : Bool :=
  (String.data ("Bearer ")).isPrefixOf h.data

/-- verifyFirebaseToken from the auth middleware: extract the bearer token,
hand it to the auth service (`verify`, taking the token and the checkRevoked
flag), 401 on missing/invalid-format/failed verification, attach
`verificationResult.data` on success.  Optional mode bypasses only the
missing-header, wrong-scheme and empty-token cases. -/
def verifyFirebaseToken (checkRevoked optional : Bool) (authHeader : Option String)
    (verify : String → Bool → JValue) (ts : String) : MwResult :=
  let missingBranch : MwResult :=
    if optional then MwResult.next JValue.null
    else MwResult.respond 401
      (FirebaseResponse.unauthorized ("Authorization token required") ("MISSING_TOKEN") ts)
  match authHeader with
  | none => missingBranch
  | some h =>
    if !(startsWithBearer h) then missingBranch
    else
      let idToken := bearerToken h
      if idToken = "" then
        if optional then MwResult.next JValue.null
        else MwResult.respond 401
          (FirebaseResponse.unauthorized ("Invalid authorization format") ("INVALID_FORMAT") ts)
      else
        let verificationResult := verify idToken checkRevoked
        if !(jsTruthy (jGetD verificationResult ("success"))) then
          MwResult.respond 401 verificationResult
        else
          MwResult.next (jGetD verificationResult ("data"))

/-- optionalFirebaseAuth = verifyFirebaseToken({ optional: true }). -/
def optionalFirebaseAuth (authHeader : Option String)
    (verify : String → Bool → JValue) (ts : String) : MwResult :=
  verifyFirebaseToken false true authHeader verify ts

/-- An error raised by the identity provider's SDK. -/
structure ProviderError where
  code : String
  message : String

/-- A decoded identity token as handed back by the provider. -/
structure DecodedToken where
  uid : String
  email : String
  emailVerified : Bool
  name : String
  picture : String
  phoneNumber : String
  iss : String
  aud : String
  iat : Int
  exp : Int
  authTime : Int
  customClaims : JValue

/-- Outcome of the provider call `auth.verifyIdToken(idToken, checkRevoked)`. -/
inductive ProviderResult where
  | ok (decoded : DecodedToken)
  | err (e : ProviderError)

/-- The userData record AuthService.verifyIdToken builds from a decoded
token; `Date` values are embedded as their epoch-millisecond counts. -/
def userDataOf (d : DecodedToken) : JValue :=
  JValue.obj
    [("uid", JValue.str d.uid), ("email", JValue.str d.email),
     ("emailVerified", JValue.bool d.emailVerified),
     ("name", JValue.str d.name), ("picture", JValue.str d.picture),
     ("phoneNumber", JValue.str d.phoneNumber),
     ("issuer", JValue.str d.iss), ("audience", JValue.str d.aud),
     ("issuedAt", JValue.num (d.iat * 1000)),
     ("expiresAt", JValue.num (d.exp * 1000)),
     ("authTime", JValue.num (d.authTime * 1000)),
     ("customClaims", if jsTruthy d.customClaims then d.customClaims else JValue.obj [])]

/-- AuthService.verifyIdToken: falsy token → missingToken envelope; provider
success → tokenVerified; provider errors mapped on `error.code`:
`auth/id-token-expired` and `auth/invalid-id-token` → invalidToken,
`auth/id-token-revoked` → unauthorized TOKEN_REVOKED, anything else → generic
error envelope preserving the provider code. -/
def AuthService.verifyIdToken (idToken : String) (provider : ProviderResult)
    (timing : Int) (isDev : Bool) (stack : JValue) (ts : String) : JValue :=
  if idToken = "" then FirebaseResponses.auth.missingToken ts
  else
    match provider with
    | .ok d => FirebaseResponses.auth.tokenVerified (userDataOf d) timing ts
    | .err e =>
      if e.code = "auth/id-token-expired" then FirebaseResponses.auth.invalidToken ts
      else if e.code = "auth/id-token-revoked" then
        FirebaseResponse.unauthorized ("Token has been revoked") ("TOKEN_REVOKED") ts
      else if e.code = "auth/invalid-id-token" then FirebaseResponses.auth.invalidToken ts
      else
        FirebaseResponse.error (some e.message) (some e.code) ("verifyIdToken") []
          (some timing) isDev stack JValue.null ts

/-- Custom claims of a fetched user record, as read by the role and
permission gates (`customClaims?.role`, `customClaims?.roles`,
`customClaims?.permissions`). -/
structure CustomClaims where
  role : Option String
  roles : Option (List String)
  permissions : Option (List String)

/-- The slice of `userResult.data` the role gate reads. -/
structure FetchedUser where
  uid : String
  customClaims : Option CustomClaims

/-- Outcome of `authService.getUserByUid` as seen by the gates. -/
inductive UserFetch where
  | success (u : FetchedUser)
  | failure (errCode errMessage : String)

/-- Message `Role '<requiredRole>' required`. -/
def roleRequiredMessage (requiredRole : String) : String :=
  "Role " ++ quoteCh ++ requiredRole ++ quoteCh ++ " required"

/-- requireRole from the auth middleware: 401 without `req.user`, 500 when
the user fetch fails, then membership of the required role in
`customClaims?.roles || []` or strict equality with `customClaims?.role`;
absence → 403 INSUFFICIENT_ROLE, presence → next(). -/
def requireRole (requiredRole : String) (user : Option String)
    (fetch : String → UserFetch) (isDev : Bool) (ts : String) : MwResult :=
  match user with
  | none => MwResult.respond 401
      (FirebaseResponse.unauthorized ("Authentication required for role check") ("UNAUTHORIZED") ts)
  | some uid =>
    match fetch uid with
    | .failure code msg => MwResult.respond 500
        (FirebaseResponse.error (some msg) (some code) ("role verification") []
          none isDev JValue.null JValue.null ts)
    | .success u =>
      let userRoles := (u.customClaims.bind CustomClaims.roles).getD []
      let userRole := u.customClaims.bind CustomClaims.role
      let hasRole := userRoles.contains requiredRole || userRole == some requiredRole
      if hasRole then MwResult.next JValue.null
      else MwResult.respond 403
        (FirebaseResponse.forbidden (roleRequiredMessage requiredRole) ("INSUFFICIENT_ROLE") ts)

/-- The four request parts the validation middleware can target. -/
inductive ReqPart where
  | body
  | params
  | query
  | headers
deriving DecidableEq

/-- The mutable parts of an Express request the validator touches. -/
structure Request where
  body : JValue
  params : JValue
  query : JValue
  headers : JValue

/-- Read one part of the request. -/
def getPart (req : Request) : ReqPart → JValue
  | .body => req.body
  | .params => req.params
  | .query => req.query
  | .headers => req.headers

/-- Replace one part of the request, leaving the others untouched. -/
def setPart (req : Request) : ReqPart → JValue → Request
  | .body, v => { req with body := v }
  | .params, v => { req with params := v }
  | .query, v => { req with query := v }
  | .headers, v => { req with headers := v }

/-- One entry of Joi's `error.details`. -/
structure JoiDetail where
  path : List String
  message : String
  contextValue : JValue
  dtype : String

/-- Result of `schema.validate(data, { abortEarly: false, allowUnknown:
false, stripUnknown: true, convert: true })`: either the coerced value or a
non-empty list of details.  Joi itself is an external library, so a schema
is embedded as this function. -/
inductive JoiResult where
  | ok (value : JValue)
  | fail (details : List JoiDetail)

/-- The per-detail record validateFirebase builds: `{ field:
path.join('.'), message, value: context?.value, type }`. -/
def detailToVError (d : JoiDetail) : JValue :=
  JValue.obj
    [("field", JValue.str (String.intercalate (".") d.path)),
     ("message", JValue.str d.message),
     ("value", d.contextValue),
     ("type", JValue.str d.dtype)]

/-- validateFirebase from the validation middleware: validate the selected
part; on failure respond 400 with a validation envelope and leave the
request untouched; on success overwrite only the selected part with the
coerced value and continue. -/
def validateFirebase (schema : JValue → JoiResult) (source : ReqPart)
    (req : Request) (ts : String) : MwResult × Request :=
  match schema (getPart req source) with
  | .fail details =>
    (MwResult.respond 400
      (FirebaseResponse.validation (JValue.arr (details.map detailToVError))
        ("Validation failed") ts), req)
  | .ok value => (MwResult.next JValue.null, setPart req source value)

/-- The Firestore collection/document store, keyed by collection name and
document id. -/
abbrev Store := List ((String × String) × JValue)

/-- Document lookup, the model of `db.collection(c).doc(id).get()`. -/
def storeLookup (store : Store) (collection docId : String) : Option JValue :=
  (store.find? (fun e => e.1.1 == collection && e.1.2 == docId)).map (fun e => e.2)

/-- Removal of a document, the model of `docRef.delete()`. -/
def storeErase (store : Store) (collection docId : String) : Store :=
  store.filter (fun e => !(e.1.1 == collection && e.1.2 == docId))

/-- In-place replacement of a document's value. -/
def storeSet (store : Store) (collection docId : String) (v : JValue) : Store :=
  store.map (fun e => if e.1.1 == collection && e.1.2 == docId then (e.1, v) else e)

/-- `docRef.update(fields)` on an object document: spread-merge, the update
winning on duplicate keys. -/
def objMerge (doc : JValue) (updates : List (String × JValue)) : JValue :=
  match doc with
  | .obj fields => .obj (fields ++ updates)
  | v => v

/-- FirestoreService.deleteDocument: absent document → notFound envelope and
unchanged store; hardDelete → remove the document; soft delete → merge
`{ deleted: true, deletedAt, ...(userId && { deletedBy }) }`; both return the
deleted envelope.  `serverTs` stands for the provider's server timestamp. -/
def FirestoreService.deleteDocument (store : Store) (collection docId : String)
    (hardDelete : Bool) (userId : Option String) (timing : Int)
    (serverTs : JValue) (ts : String) : JValue × Store :=
  match storeLookup store collection docId with
  | none => (FirebaseResponses.document.notFound collection docId ts, store)
  | some doc =>
    if hardDelete then
      (FirebaseResponses.document.deleted docId timing ts, storeErase store collection docId)
    else
      (FirebaseResponses.document.deleted docId timing ts,
       storeSet store collection docId
         (objMerge doc
           ([("deleted", JValue.bool true), ("deletedAt", serverTs)]
            ++ (match userId with
                | some u => [("deletedBy", JValue.str u)]
                | none => []))))

/-- The delete route's status mapping: `res.status(result.success ? 200 : 404)`. -/
def deleteRouteStatus (result : JValue) : Nat :=
  if jsTruthy (jGetD result ("success")) then 200 else 404

/-- One entry of the batch request body. -/
structure BatchOp where
  type : String
  collection : String
  id : String
  data : JValue

/-- The per-operation result record pushed by FirestoreService.batchOperations
while staging the batch: create/update/delete are unconditionally recorded as
successful (the store is never consulted), any other type as failed.  `gen`
supplies the provider-generated id of `db.collection(c).doc()`. -/
def batchOpResult (gen : Nat → String) (index : Nat) (op : BatchOp) : JValue :=
  if op.type = "create" then
    JValue.obj
      [("success", JValue.bool true), ("type", JValue.str op.type),
       ("collection", JValue.str op.collection), ("id", JValue.str (gen index)),
       ("index", JValue.num (Int.ofNat index))]
  else if op.type = "update" then
    JValue.obj
      [("success", JValue.bool true), ("type", JValue.str op.type),
       ("collection", JValue.str op.collection), ("id", JValue.str op.id),
       ("index", JValue.num (Int.ofNat index))]
  else if op.type = "delete" then
    JValue.obj
      [("success", JValue.bool true), ("type", JValue.str op.type),
       ("collection", JValue.str op.collection), ("id", JValue.str op.id),
       ("index", JValue.num (Int.ofNat index))]
  else
    JValue.obj
      [("success", JValue.bool false),
       ("error", JValue.str ("Invalid operation type: " ++ op.type)),
       ("index", JValue.num (Int.ofNat index))]

/-- The results list staged by batchOperations' forEach. -/
def batchResults (gen : Nat → String) (ops : List BatchOp) : List JValue :=
  ops.enum.map (fun p => batchOpResult gen p.1 p.2)

/-- FirestoreService.batchOperations on the path where the staged batch
commits: the envelope is FirebaseResponse.batch over the staged results. -/
def FirestoreService.batchOperations (gen : Nat → String) (ops : List BatchOp)
    (ts : String) : JValue :=
  FirebaseResponse.batch (batchResults gen ops) ("batch operations") ts

/-- Folding the last-match lookup over fields whose keys all differ from the
key being searched leaves the accumulator unchanged. -/
theorem foldl_lookup_const (l : List (String × JValue)) (key : String)
    (acc : Option JValue) (h : ∀ f ∈ l, f.1 ≠ key) :
    List.foldl (fun a f => if f.1 = key then some f.2 else a) acc l = acc := by
  induction l generalizing acc with
  | nil => rfl
  | cons f fs ih =>
    simp only [List.foldl_cons]
    rw [if_neg (h f (by simp))]
    exact ih _ (fun g hg => h g (by simp [hg]))

/-- Appending fields with foreign keys does not change a last-match lookup. -/
theorem lookupLast_append_skip (l1 l2 : List (String × JValue)) (key : String)
    (h : ∀ f ∈ l2, f.1 ≠ key) :
    lookupLast (l1 ++ l2) key = lookupLast l1 key := by
  unfold lookupLast
  rw [List.foldl_append]
  exact foldl_lookup_const l2 key _ h

/-- Every field contributed by the timing spread is keyed `timing`. -/
theorem timingFields_keys (timing : Option Int) :
    ∀ f ∈ timingFields timing, f.1 = "timing" := by
  intro f hf
  cases timing with
  | none => simp [timingFields] at hf
  | some t =>
    simp only [timingFields] at hf
    by_cases ht : (t != 0) = true
    · rw [if_pos ht] at hf
      simp at hf
      rw [hf]
    · rw [if_neg ht] at hf
      simp at hf

/-- Membership in a conditional singleton pins the member down. -/
theorem mem_if_singleton {α : Type} (cond : Bool) (x f : α)
    (hf : f ∈ (if cond then [x] else [])) : f = x := by
  cases cond with
  | false => simp at hf
  | true => simpa using hf

/-- Reading `success` out of a success envelope always gives `true`. -/
theorem success_envelope_success (data : JValue) (message : String)
    (timing : Option Int) (meta : List (String × JValue)) (ts : String) :
    objGet (FirebaseResponse.success data message timing meta ts) ("success")
      = some (JValue.bool true) := by
  show lookupLast _ _ = _
  rw [List.append_assoc, List.append_assoc]
  rw [lookupLast_append_skip]
  · rfl
  · intro f hf
    rcases List.mem_append.mp hf with h1 | h2
    · rw [mem_if_singleton _ _ _ h1]
      simp
    · rcases List.mem_append.mp h2 with h3 | h4
      · rw [timingFields_keys timing f h3]
        simp
      · rw [mem_if_singleton _ _ _ h4]
        simp

/-- Reading `message` out of a success envelope gives the given message. -/
theorem success_envelope_message (data : JValue) (message : String)
    (timing : Option Int) (meta : List (String × JValue)) (ts : String) :
    objGet (FirebaseResponse.success data message timing meta ts) ("message")
      = some (JValue.str message) := by
  show lookupLast _ _ = _
  rw [List.append_assoc, List.append_assoc]
  rw [lookupLast_append_skip]
  · rfl
  · intro f hf
    rcases List.mem_append.mp hf with h1 | h2
    · rw [mem_if_singleton _ _ _ h1]
      simp
    · rcases List.mem_append.mp h2 with h3 | h4
      · rw [timingFields_keys timing f h3]
        simp
      · rw [mem_if_singleton _ _ _ h4]
        simp

/-- Claim C3: on a route requiring authentication, a request whose
authorization header is absent or not `Bearer `-prefixed is answered 401 with
an envelope whose error code is MISSING_TOKEN; with auth marked optional the
same request continues to the next stage with no attached identity. -/
theorem claimC3_missing_token (checkRevoked : Bool) (authHeader : Option String)
    (verify : String → Bool → JValue) (ts : String)
    (h : authHeader = none ∨ ∃ s, authHeader = some s ∧ startsWithBearer s = false) :
    verifyFirebaseToken checkRevoked false authHeader verify ts
      = MwResult.respond 401
          (FirebaseResponse.unauthorized ("Authorization token required") ("MISSING_TOKEN") ts)
    ∧ errorCode (FirebaseResponse.unauthorized ("Authorization token required") ("MISSING_TOKEN") ts)
      = some (JValue.str ("MISSING_TOKEN"))
    ∧ verifyFirebaseToken checkRevoked true authHeader verify ts = MwResult.next JValue.null := by
  rcases h with h | ⟨s, hs, hpre⟩
  · subst h
    exact ⟨rfl, rfl, rfl⟩
  · subst hs
    refine ⟨?_, rfl, ?_⟩ <;> simp [verifyFirebaseToken, hpre]

/-- Witness for C3 at a concrete request carrying a Basic-scheme header. -/
theorem claimC3_witness :
    verifyFirebaseToken false false (some ("Basic abc")) (fun _ _ => JValue.null) ("T")
      = MwResult.respond 401
          (FirebaseResponse.unauthorized ("Authorization token required") ("MISSING_TOKEN") ("T"))
    ∧ errorCode (FirebaseResponse.unauthorized ("Authorization token required") ("MISSING_TOKEN") ("T"))
      = some (JValue.str ("MISSING_TOKEN"))
    ∧ verifyFirebaseToken false true (some ("Basic abc")) (fun _ _ => JValue.null) ("T")
      = MwResult.next JValue.null :=
  claimC3_missing_token false (some ("Basic abc")) (fun _ _ => JValue.null) ("T")
    (Or.inr ⟨"Basic abc", rfl, by decide⟩)

/-- Claim C10: the optional-auth variant still rejects with 401 any request
whose bearer token is present but fails verification; optionality bypasses
only a missing header, a non-bearer scheme, or an empty token, which continue
with no identity. -/
theorem claimC10_optional_auth (checkRevoked : Bool) (h : String)
    (verify : String → Bool → JValue) (ts : String)
    (hpre : startsWithBearer h = true)
    (htok : bearerToken h ≠ "")
    (hfail : jsTruthy (jGetD (verify (bearerToken h) checkRevoked) ("success")) = false) :
    verifyFirebaseToken checkRevoked true (some h) verify ts
      = MwResult.respond 401 (verify (bearerToken h) checkRevoked)
    ∧ verifyFirebaseToken checkRevoked true none verify ts = MwResult.next JValue.null
    ∧ (∀ s : String, startsWithBearer s = false →
        verifyFirebaseToken checkRevoked true (some s) verify ts = MwResult.next JValue.null)
    ∧ (∀ s : String, startsWithBearer s = true → bearerToken s = "" →
        verifyFirebaseToken checkRevoked true (some s) verify ts = MwResult.next JValue.null) := by
  refine ⟨?_, rfl, ?_, ?_⟩
  · simp [verifyFirebaseToken, hpre, htok, hfail]
  · intro s hs
    simp [verifyFirebaseToken, hs]
  · intro s hs he
    simp [verifyFirebaseToken, hs, he]

/-- Witness for C10: a bearer header whose token the verifier rejects. -/
theorem claimC10_witness :
    verifyFirebaseToken false true (some ("Bearer tok"))
        (fun _ _ => FirebaseResponses.auth.invalidToken ("T")) ("T")
      = MwResult.respond 401
          (FirebaseResponses.auth.invalidToken ("T"))
    ∧ verifyFirebaseToken false true none
        (fun _ _ => FirebaseResponses.auth.invalidToken ("T")) ("T") = MwResult.next JValue.null
    ∧ (∀ s : String, startsWithBearer s = false →
        verifyFirebaseToken false true (some s)
          (fun _ _ => FirebaseResponses.auth.invalidToken ("T")) ("T") = MwResult.next JValue.null)
    ∧ (∀ s : String, startsWithBearer s = true → bearerToken s = "" →
        verifyFirebaseToken false true (some s)
          (fun _ _ => FirebaseResponses.auth.invalidToken ("T")) ("T") = MwResult.next JValue.null) :=
  claimC10_optional_auth false ("Bearer tok")
    (fun _ _ => FirebaseResponses.auth.invalidToken ("T")) ("T")
    (by decide) (by decide) (by decide)

/-- With no additional context spread in, the `code` inside a generic error
envelope is the original code, defaulted only when falsy. -/
theorem error_envelope_errorCode (em ec : Option String) (op : String)
    (timing : Option Int) (isDev : Bool) (stack details : JValue) (ts : String) :
    errorCode (FirebaseResponse.error em ec op [] timing isDev stack details ts)
      = some (JValue.str (jsOrStr ec ("UNKNOWN_ERROR"))) := by
  have h2 : errorCode (FirebaseResponse.error em ec op [] timing isDev stack details ts)
      = objGet (JValue.obj
          ([("message", JValue.str (jsOrStr em ("Unknown error occurred"))),
            ("code", JValue.str (jsOrStr ec ("UNKNOWN_ERROR"))),
            ("operation", JValue.str op),
            ("timestamp", JValue.str ts)]
           ++ timingFields timing
           ++ (if isDev then [("stack", stack), ("details", details)] else [])
           ++ [])) ("code") := rfl
  rw [h2]
  show lookupLast _ _ = _
  rw [List.append_assoc, List.append_assoc]
  rw [lookupLast_append_skip]
  · rfl
  · intro f hf
    rcases List.mem_append.mp hf with h3 | h4
    · rw [timingFields_keys timing f h3]
      simp
    · rcases List.mem_append.mp h4 with h5 | h6
      · cases isDev with
        | false => simp at h5
        | true =>
          simp only [if_pos] at h5
          rcases List.mem_cons.mp h5 with h | h
          · rw [h]; simp
          · rcases List.mem_cons.mp h with h7 | h7
            · rw [h7]; simp
            · simp at h7
      · simp at h6

/-- The `success` of a generic error envelope is false. -/
theorem error_envelope_success (em ec : Option String) (op : String)
    (ctx : List (String × JValue)) (timing : Option Int)
    (isDev : Bool) (stack details : JValue) (ts : String) :
    objGet (FirebaseResponse.error em ec op ctx timing isDev stack details ts) ("success")
      = some (JValue.bool false) := rfl

/-- Claim C4: AuthService.verifyIdToken maps provider errors: expired or
invalid token codes give the unauthorized envelope with code INVALID_TOKEN,
the revoked code gives TOKEN_REVOKED, and any other provider error yields a
generic failure envelope preserving the provider's original code. -/
theorem claimC4_error_mapping (idToken : String) (e : ProviderError)
    (timing : Int) (isDev : Bool) (stack : JValue) (ts : String)
    (hne : idToken ≠ "") :
    ((e.code = "auth/id-token-expired" ∨ e.code = "auth/invalid-id-token") →
      AuthService.verifyIdToken idToken (.err e) timing isDev stack ts
        = FirebaseResponses.auth.invalidToken ts
      ∧ errorCode (FirebaseResponses.auth.invalidToken ts) = some (JValue.str ("INVALID_TOKEN"))
      ∧ errorType (FirebaseResponses.auth.invalidToken ts)
        = some (JValue.str ("AUTHENTICATION_ERROR")))
    ∧ (e.code = "auth/id-token-revoked" →
      AuthService.verifyIdToken idToken (.err e) timing isDev stack ts
        = FirebaseResponse.unauthorized ("Token has been revoked") ("TOKEN_REVOKED") ts
      ∧ errorCode (FirebaseResponse.unauthorized ("Token has been revoked") ("TOKEN_REVOKED") ts)
        = some (JValue.str ("TOKEN_REVOKED")))
    ∧ (e.code ≠ "auth/id-token-expired" → e.code ≠ "auth/id-token-revoked" →
       e.code ≠ "auth/invalid-id-token" → e.code ≠ "" →
      AuthService.verifyIdToken idToken (.err e) timing isDev stack ts
        = FirebaseResponse.error (some e.message) (some e.code) ("verifyIdToken") []
            (some timing) isDev stack JValue.null ts
      ∧ errorCode (AuthService.verifyIdToken idToken (.err e) timing isDev stack ts)
        = some (JValue.str e.code)
      ∧ objGet (AuthService.verifyIdToken idToken (.err e) timing isDev stack ts) ("success")
        = some (JValue.bool false)) := by
  refine ⟨?_, ?_, ?_⟩
  · rintro (hc | hc) <;>
      exact ⟨by simp [AuthService.verifyIdToken, hne, hc], rfl, rfl⟩
  · intro hc
    have hc1 : e.code ≠ "auth/id-token-expired" := by rw [hc]; decide
    exact ⟨by simp [AuthService.verifyIdToken, hne, hc, hc1], rfl⟩
  · intro h1 h2 h3 h4
    have heq : AuthService.verifyIdToken idToken (.err e) timing isDev stack ts
        = FirebaseResponse.error (some e.message) (some e.code) ("verifyIdToken") []
            (some timing) isDev stack JValue.null ts := by
      simp [AuthService.verifyIdToken, hne, h1, h2, h3]
    refine ⟨heq, ?_, ?_⟩
    · rw [heq, error_envelope_errorCode]
      simp [jsOrStr, h4]
    · rw [heq, error_envelope_success]

/-- Witness for C4 at one concrete error of each kind. -/
theorem claimC4_witness :
    (AuthService.verifyIdToken ("tok")
        (ProviderResult.err ⟨"auth/id-token-expired", "expired"⟩) 5 false JValue.null ("T")
      = FirebaseResponses.auth.invalidToken ("T"))
    ∧ (AuthService.verifyIdToken ("tok")
        (ProviderResult.err ⟨"auth/id-token-revoked", "revoked"⟩) 5 false JValue.null ("T")
      = FirebaseResponse.unauthorized ("Token has been revoked") ("TOKEN_REVOKED") ("T"))
    ∧ errorCode (AuthService.verifyIdToken ("tok")
        (ProviderResult.err ⟨"auth/network-fail", "boom"⟩) 5 false JValue.null ("T"))
      = some (JValue.str ("auth/network-fail")) :=
  ⟨((claimC4_error_mapping ("tok") ⟨"auth/id-token-expired", "expired"⟩ 5 false JValue.null ("T")
      (by decide)).1 (Or.inl rfl)).1,
   ((claimC4_error_mapping ("tok") ⟨"auth/id-token-revoked", "revoked"⟩ 5 false JValue.null ("T")
      (by decide)).2.1 rfl).1,
   ((claimC4_error_mapping ("tok") ⟨"auth/network-fail", "boom"⟩ 5 false JValue.null ("T")
      (by decide)).2.2 (by decide) (by decide) (by decide) (by decide)).2.1⟩

/-- Claim C7: with a verified identity whose fetched custom claims carry the
required role neither as the singular role claim nor in the roles list, the
role gate responds 403 with code INSUFFICIENT_ROLE; granting the role in the
claims makes the same request continue to the next stage. -/
theorem claimC7_role_gate (requiredRole uid : String) (u : FetchedUser)
    (fetch : String → UserFetch) (isDev : Bool) (ts : String)
    (hfetch : fetch uid = UserFetch.success u) :
    (((u.customClaims.bind CustomClaims.roles).getD []).contains requiredRole = false →
      (u.customClaims.bind CustomClaims.role == some requiredRole) = false →
      requireRole requiredRole (some uid) fetch isDev ts
        = MwResult.respond 403
            (FirebaseResponse.forbidden (roleRequiredMessage requiredRole)
              ("INSUFFICIENT_ROLE") ts)
      ∧ errorCode (FirebaseResponse.forbidden (roleRequiredMessage requiredRole)
            ("INSUFFICIENT_ROLE") ts)
        = some (JValue.str ("INSUFFICIENT_ROLE")))
    ∧ ((((u.customClaims.bind CustomClaims.roles).getD []).contains requiredRole = true
        ∨ (u.customClaims.bind CustomClaims.role == some requiredRole) = true) →
      requireRole requiredRole (some uid) fetch isDev ts = MwResult.next JValue.null) := by
  constructor
  · intro hlist hsingle
    simp at hlist hsingle
    refine ⟨?_, rfl⟩
    simp [requireRole, hfetch, hlist, hsingle]
  · intro hgrant
    rcases hgrant with hg | hg <;> simp at hg <;> simp [requireRole, hfetch, hg]

/-- Witness for C7: claims without the admin role are rejected 403, claims
listing it pass. -/
theorem claimC7_witness :
    (requireRole ("admin") (some ("u1"))
        (fun _ => UserFetch.success ⟨"u1", some ⟨some ("user"), some ["viewer"], none⟩⟩)
        false ("T")
      = MwResult.respond 403
          (FirebaseResponse.forbidden (roleRequiredMessage ("admin"))
            ("INSUFFICIENT_ROLE") ("T")))
    ∧ (requireRole ("admin") (some ("u1"))
        (fun _ => UserFetch.success ⟨"u1", some ⟨some ("user"), some ["viewer", "admin"], none⟩⟩)
        false ("T")
      = MwResult.next JValue.null) :=
  ⟨((claimC7_role_gate ("admin") ("u1") ⟨"u1", some ⟨some ("user"), some ["viewer"], none⟩⟩
      (fun _ => UserFetch.success ⟨"u1", some ⟨some ("user"), some ["viewer"], none⟩⟩)
      false ("T") rfl).1 (by decide) (by decide)).1,
   (claimC7_role_gate ("admin") ("u1") ⟨"u1", some ⟨some ("user"), some ["viewer", "admin"], none⟩⟩
      (fun _ => UserFetch.success ⟨"u1", some ⟨some ("user"), some ["viewer", "admin"], none⟩⟩)
      false ("T") rfl).2 (Or.inl (by decide))⟩

/-- Claim C9: the validation middleware is frame-preserving: on success it
replaces only the validated part with the coerced value, and on failure it
responds 400 and leaves every part of the request unchanged. -/
theorem claimC9_validation_frame (schema : JValue → JoiResult) (source : ReqPart)
    (req : Request) (ts : String) :
    (∀ value : JValue, schema (getPart req source) = JoiResult.ok value →
      (validateFirebase schema source req ts).1 = MwResult.next JValue.null
      ∧ (validateFirebase schema source req ts).2 = setPart req source value
      ∧ ∀ p : ReqPart, p ≠ source →
          getPart (validateFirebase schema source req ts).2 p = getPart req p)
    ∧ (∀ details : List JoiDetail, schema (getPart req source) = JoiResult.fail details →
      (validateFirebase schema source req ts).2 = req
      ∧ (validateFirebase schema source req ts).1
        = MwResult.respond 400
            (FirebaseResponse.validation (JValue.arr (details.map detailToVError))
              ("Validation failed") ts)) := by
  constructor
  · intro value hok
    refine ⟨?_, ?_, ?_⟩
    · simp [validateFirebase, hok]
    · simp [validateFirebase, hok]
    · intro p hp
      have h2 : (validateFirebase schema source req ts).2 = setPart req source value := by
        simp [validateFirebase, hok]
      rw [h2]
      cases p <;> cases source <;> first
        | exact absurd rfl hp
        | rfl
  · intro details hfail
    exact ⟨by simp [validateFirebase, hfail], by simp [validateFirebase, hfail]⟩

/-- Witness for C9: a schema accepting the body coerces only the body; a
schema rejecting the query leaves the request intact. -/
theorem claimC9_witness :
    (validateFirebase (fun _ => JoiResult.ok (JValue.obj []))
        ReqPart.body ⟨JValue.null, JValue.null, JValue.null, JValue.null⟩ ("T")).2
      = setPart ⟨JValue.null, JValue.null, JValue.null, JValue.null⟩ ReqPart.body (JValue.obj [])
    ∧ (validateFirebase (fun _ => JoiResult.fail [])
        ReqPart.query ⟨JValue.null, JValue.null, JValue.null, JValue.null⟩ ("T")).2
      = ⟨JValue.null, JValue.null, JValue.null, JValue.null⟩ :=
  ⟨((claimC9_validation_frame (fun _ => JoiResult.ok (JValue.obj [])) ReqPart.body
      ⟨JValue.null, JValue.null, JValue.null, JValue.null⟩ ("T")).1 (JValue.obj []) rfl).2.1,
   ((claimC9_validation_frame (fun _ => JoiResult.fail []) ReqPart.query
      ⟨JValue.null, JValue.null, JValue.null, JValue.null⟩ ("T")).2 [] rfl).1⟩

/-- After erasing a document, looking it up finds nothing. -/
theorem storeLookup_erase (store : Store) (c d : String) :
    storeLookup (storeErase store c d) c d = none := by
  unfold storeLookup storeErase
  have hfind : (store.filter fun e => !(e.1.1 == c && e.1.2 == d)).find?
      (fun e => e.1.1 == c && e.1.2 == d) = none := by
    rw [List.find?_eq_none]
    intro x hx
    have hx2 := (List.mem_filter.mp hx).2
    simp at hx2 ⊢
    intro h1
    rcases hx2 with h | h
    · exact absurd h1 h
    · exact h
  rw [hfind]
  rfl

/-- Claim C8: hard-deleting a document that a first hard-delete already
removed returns the not-found envelope (mapped to HTTP 404 by the delete
route), not a second success envelope. -/
theorem claimC8_hard_delete_idempotent (store : Store) (collection docId : String)
    (userId : Option String) (doc : JValue) (t1 t2 : Int) (sv : JValue) (ts1 ts2 : String)
    (h : storeLookup store collection docId = some doc) :
    objGet (FirestoreService.deleteDocument store collection docId true userId t1 sv ts1).1
        ("success") = some (JValue.bool true)
    ∧ (FirestoreService.deleteDocument
        (FirestoreService.deleteDocument store collection docId true userId t1 sv ts1).2
        collection docId true userId t2 sv ts2).1
      = FirebaseResponses.document.notFound collection docId ts2
    ∧ objGet (FirebaseResponses.document.notFound collection docId ts2) ("success")
      = some (JValue.bool false)
    ∧ errorCode (FirebaseResponses.document.notFound collection docId ts2)
      = some (JValue.str ("NOT_FOUND"))
    ∧ deleteRouteStatus (FirebaseResponses.document.notFound collection docId ts2) = 404 := by
  have hstep : FirestoreService.deleteDocument store collection docId true userId t1 sv ts1
      = (FirebaseResponses.document.deleted docId t1 ts1, storeErase store collection docId) := by
    simp [FirestoreService.deleteDocument, h]
  have hnone : storeLookup (storeErase store collection docId) collection docId = none :=
    storeLookup_erase store collection docId
  refine ⟨?_, ?_, rfl, rfl, rfl⟩
  · rw [hstep]
    exact success_envelope_success _ _ _ _ _
  · rw [hstep]
    simp [FirestoreService.deleteDocument, hnone]

/-- Witness for C8 at a one-document store. -/
theorem claimC8_witness :
    objGet (FirestoreService.deleteDocument [(("todos", "a1"), JValue.obj [])]
        ("todos") ("a1") true none 3 JValue.null ("T1")).1 ("success")
      = some (JValue.bool true)
    ∧ (FirestoreService.deleteDocument
        (FirestoreService.deleteDocument [(("todos", "a1"), JValue.obj [])]
          ("todos") ("a1") true none 3 JValue.null ("T1")).2
        ("todos") ("a1") true none 4 JValue.null ("T2")).1
      = FirebaseResponses.document.notFound ("todos") ("a1") ("T2")
    ∧ objGet (FirebaseResponses.document.notFound ("todos") ("a1") ("T2")) ("success")
      = some (JValue.bool false)
    ∧ errorCode (FirebaseResponses.document.notFound ("todos") ("a1") ("T2"))
      = some (JValue.str ("NOT_FOUND"))
    ∧ deleteRouteStatus (FirebaseResponses.document.notFound ("todos") ("a1") ("T2")) = 404 :=
  claimC8_hard_delete_idempotent [(("todos", "a1"), JValue.obj [])] ("todos") ("a1")
    none (JValue.obj []) 3 4 JValue.null ("T1") ("T2") rfl

/-- Counterexample for C6: a validation envelope has success false yet
carries no `error` object at all (its failures sit in a top-level `errors`
list), so not every failure envelope has the `{ success: false, error:
{ code, type, message, ... } }` shape. -/
theorem claimC6_counterexample :
    objGet (FirebaseResponse.validation (JValue.str ("bad")) ("Validation failed") ("T"))
        ("success") = some (JValue.bool false)
    ∧ objGet (FirebaseResponse.validation (JValue.str ("bad")) ("Validation failed") ("T"))
        ("error") = none := ⟨rfl, rfl⟩

/-- Claim C6 (amended): every constructor yields a boolean `success` field;
success and paginated envelopes are success-shaped with a message;
unauthorized, forbidden and notFound carry an error object with code and
type whose human message sits at the top level only — their error object has
no message key; the generic error envelope carries an error object with code
and message keys and, whenever the caller's additional context does not
itself inject a type key, no type key; validation carries no error object
but a top-level errors array and a VALIDATION_ERROR type; batch's success is
the emptiness of its failed sub-results and it carries no error object
either. -/
theorem claimC6_envelope_shapes :
    (∀ (data : JValue) (message : String) (timing : Option Int)
        (meta : List (String × JValue)) (ts : String),
      objGet (FirebaseResponse.success data message timing meta ts) ("success")
        = some (JValue.bool true)
      ∧ objGet (FirebaseResponse.success data message timing meta ts) ("message")
        = some (JValue.str message))
    ∧ (∀ (data : List JValue) (pagination : List (String × JValue)) (message ts : String),
      objGet (FirebaseResponse.paginated data pagination message ts) ("success")
        = some (JValue.bool true)
      ∧ objGet (FirebaseResponse.paginated data pagination message ts) ("message")
        = some (JValue.str message))
    ∧ (∀ message code ts : String,
      objGet (FirebaseResponse.unauthorized message code ts) ("success")
        = some (JValue.bool false)
      ∧ objGet (FirebaseResponse.unauthorized message code ts) ("message")
        = some (JValue.str message)
      ∧ errorCode (FirebaseResponse.unauthorized message code ts) = some (JValue.str code)
      ∧ errorType (FirebaseResponse.unauthorized message code ts)
        = some (JValue.str ("AUTHENTICATION_ERROR"))
      ∧ (∃ fs, objGet (FirebaseResponse.unauthorized message code ts) ("error")
            = some (JValue.obj fs) ∧ hasKey fs ("message") = false))
    ∧ (∀ message code ts : String,
      objGet (FirebaseResponse.forbidden message code ts) ("success")
        = some (JValue.bool false)
      ∧ objGet (FirebaseResponse.forbidden message code ts) ("message")
        = some (JValue.str message)
      ∧ errorCode (FirebaseResponse.forbidden message code ts) = some (JValue.str code)
      ∧ errorType (FirebaseResponse.forbidden message code ts)
        = some (JValue.str ("AUTHORIZATION_ERROR"))
      ∧ (∃ fs, objGet (FirebaseResponse.forbidden message code ts) ("error")
            = some (JValue.obj fs) ∧ hasKey fs ("message") = false))
    ∧ (∀ (resource : String) (identifier : Option String) (ts : String),
      objGet (FirebaseResponse.notFound resource identifier ts) ("success")
        = some (JValue.bool false)
      ∧ (∃ m, objGet (FirebaseResponse.notFound resource identifier ts) ("message")
          = some (JValue.str m))
      ∧ errorCode (FirebaseResponse.notFound resource identifier ts)
        = some (JValue.str ("NOT_FOUND"))
      ∧ errorType (FirebaseResponse.notFound resource identifier ts)
        = some (JValue.str ("RESOURCE_ERROR"))
      ∧ (∃ fs, objGet (FirebaseResponse.notFound resource identifier ts) ("error")
            = some (JValue.obj fs) ∧ hasKey fs ("message") = false))
    ∧ (∀ (em ec : Option String) (op : String) (ctx : List (String × JValue))
        (timing : Option Int) (isDev : Bool) (stack details : JValue) (ts : String),
      objGet (FirebaseResponse.error em ec op ctx timing isDev stack details ts) ("success")
        = some (JValue.bool false)
      ∧ ∃ fs, objGet (FirebaseResponse.error em ec op ctx timing isDev stack details ts)
            ("error") = some (JValue.obj fs)
          ∧ hasKey fs ("code") = true ∧ hasKey fs ("message") = true
          ∧ (hasKey ctx ("type") = false → hasKey fs ("type") = false))
    ∧ (∀ (errors : JValue) (message ts : String),
      objGet (FirebaseResponse.validation errors message ts) ("success")
        = some (JValue.bool false)
      ∧ objGet (FirebaseResponse.validation errors message ts) ("error") = none
      ∧ (∃ xs, objGet (FirebaseResponse.validation errors message ts) ("errors")
          = some (JValue.arr xs))
      ∧ objGet (FirebaseResponse.validation errors message ts) ("type")
        = some (JValue.str ("VALIDATION_ERROR")))
    ∧ (∀ (results : List JValue) (op ts : String),
      objGet (FirebaseResponse.batch results op ts) ("success")
        = some (JValue.bool
            ((results.filter (fun r => !(jsTruthy (jGetD r ("success"))))).length == 0))
      ∧ objGet (FirebaseResponse.batch results op ts) ("error") = none) := by
  refine ⟨?_, ?_, ?_, ?_, ?_, ?_, ?_, ?_⟩
  · intro data message timing meta ts
    exact ⟨success_envelope_success data message timing meta ts,
           success_envelope_message data message timing meta ts⟩
  · intro data pagination message ts
    exact ⟨rfl, rfl⟩
  · intro message code ts
    exact ⟨rfl, rfl, rfl, rfl, ⟨_, rfl, rfl⟩⟩
  · intro message code ts
    exact ⟨rfl, rfl, rfl, rfl, ⟨_, rfl, rfl⟩⟩
  · intro resource identifier ts
    exact ⟨rfl, ⟨_, rfl⟩, rfl, rfl, ⟨_, rfl, rfl⟩⟩
  · intro em ec op ctx timing isDev stack details ts
    refine ⟨rfl, ?_⟩
    refine ⟨_, rfl, ?_, ?_, ?_⟩
    · show hasKey
        ([("message", JValue.str (jsOrStr em ("Unknown error occurred"))),
          ("code", JValue.str (jsOrStr ec ("UNKNOWN_ERROR"))),
          ("operation", JValue.str op),
          ("timestamp", JValue.str ts)]
         ++ timingFields timing
         ++ (if isDev then [("stack", stack), ("details", details)] else [])
         ++ ctx) ("code") = true
      simp [hasKey]
    · show hasKey
        ([("message", JValue.str (jsOrStr em ("Unknown error occurred"))),
          ("code", JValue.str (jsOrStr ec ("UNKNOWN_ERROR"))),
          ("operation", JValue.str op),
          ("timestamp", JValue.str ts)]
         ++ timingFields timing
         ++ (if isDev then [("stack", stack), ("details", details)] else [])
         ++ ctx) ("message") = true
      simp [hasKey]
    · intro hctx
      show hasKey
        ([("message", JValue.str (jsOrStr em ("Unknown error occurred"))),
          ("code", JValue.str (jsOrStr ec ("UNKNOWN_ERROR"))),
          ("operation", JValue.str op),
          ("timestamp", JValue.str ts)]
         ++ timingFields timing
         ++ (if isDev then [("stack", stack), ("details", details)] else [])
         ++ ctx) ("type") = false
      have h2 : (timingFields timing).any (fun f => f.1 = "type") = false := by
        rw [List.any_eq_false]
        intro f hf
        rw [timingFields_keys timing f hf]
        decide
      have h3 : (((if isDev then [("stack", stack), ("details", details)] else [])
          : List (String × JValue)).any (fun f => f.1 = "type")) = false := by
        cases isDev <;> simp
      unfold hasKey at hctx ⊢
      simp only [List.any_append]
      rw [h2, h3, hctx]
      simp
  · intro errors message ts
    refine ⟨rfl, rfl, ?_, rfl⟩
    cases errors <;> exact ⟨_, rfl⟩
  · intro results op ts
    exact ⟨rfl, rfl⟩

/-- Claim C5: for a batch of two valid creates and one delete whose document
id does not exist in the store, the envelope's top-level `success` is the
emptiness of the failed sub-results, and `summary.successful` and
`summary.failed` equal the counts of per-operation results with success true
and false.  The staged results never consult the store, so here the delete is
recorded successful: the counts are 3 successful, 0 failed, and overall
success is true. -/
theorem claimC5_batch_summary (gen : Nat → String) (store : Store)
    (c1 c2 c3 : String) (d1 d2 : JValue) (missingId : String) (ts : String)
    (hmissing : storeLookup store c3 missingId = none) :
    objGet (FirestoreService.batchOperations gen
        [⟨"create", c1, "", d1⟩, ⟨"create", c2, "", d2⟩,
         ⟨"delete", c3, missingId, JValue.null⟩] ts) ("success")
      = some (JValue.bool
          (((batchResults gen
              [⟨"create", c1, "", d1⟩, ⟨"create", c2, "", d2⟩,
               ⟨"delete", c3, missingId, JValue.null⟩]).filter
              (fun r => !(jsTruthy (jGetD r ("success"))))).length == 0))
    ∧ (objGet (FirestoreService.batchOperations gen
        [⟨"create", c1, "", d1⟩, ⟨"create", c2, "", d2⟩,
         ⟨"delete", c3, missingId, JValue.null⟩] ts) ("summary")).bind
        (fun s => objGet s ("successful"))
      = some (JValue.num
          (((batchResults gen
              [⟨"create", c1, "", d1⟩, ⟨"create", c2, "", d2⟩,
               ⟨"delete", c3, missingId, JValue.null⟩]).filter
              (fun r => jsTruthy (jGetD r ("success")))).length))
    ∧ (objGet (FirestoreService.batchOperations gen
        [⟨"create", c1, "", d1⟩, ⟨"create", c2, "", d2⟩,
         ⟨"delete", c3, missingId, JValue.null⟩] ts) ("summary")).bind
        (fun s => objGet s ("failed"))
      = some (JValue.num
          (((batchResults gen
              [⟨"create", c1, "", d1⟩, ⟨"create", c2, "", d2⟩,
               ⟨"delete", c3, missingId, JValue.null⟩]).filter
              (fun r => !(jsTruthy (jGetD r ("success"))))).length))
    ∧ ((batchResults gen
          [⟨"create", c1, "", d1⟩, ⟨"create", c2, "", d2⟩,
           ⟨"delete", c3, missingId, JValue.null⟩]).filter
          (fun r => jsTruthy (jGetD r ("success")))).length = 3
    ∧ ((batchResults gen
          [⟨"create", c1, "", d1⟩, ⟨"create", c2, "", d2⟩,
           ⟨"delete", c3, missingId, JValue.null⟩]).filter
          (fun r => !(jsTruthy (jGetD r ("success"))))).length = 0
    ∧ objGet (FirestoreService.batchOperations gen
        [⟨"create", c1, "", d1⟩, ⟨"create", c2, "", d2⟩,
         ⟨"delete", c3, missingId, JValue.null⟩] ts) ("success")
      = some (JValue.bool true) :=
  ⟨rfl, rfl, rfl, rfl, rfl, rfl⟩

/-- Witness for C5 on an empty store, where no document id exists. -/
theorem claimC5_witness :
    objGet (FirestoreService.batchOperations (fun n => toString n)
        [⟨"create", "todos", "", JValue.obj []⟩, ⟨"create", "todos", "", JValue.obj []⟩,
         ⟨"delete", "todos", "ghost", JValue.null⟩] ("T")) ("success")
      = some (JValue.bool true)
    ∧ ((batchResults (fun n => toString n)
          [⟨"create", "todos", "", JValue.obj []⟩, ⟨"create", "todos", "", JValue.obj []⟩,
           ⟨"delete", "todos", "ghost", JValue.null⟩]).filter
          (fun r => !(jsTruthy (jGetD r ("success"))))).length = 0 :=
  ⟨(claimC5_batch_summary (fun n => toString n) [] ("todos") ("todos") ("todos")
      (JValue.obj []) (JValue.obj []) ("ghost") ("T") rfl).2.2.2.2.2,
   (claimC5_batch_summary (fun n => toString n) [] ("todos") ("todos") ("todos")
      (JValue.obj []) (JValue.obj []) ("ghost") ("T") rfl).2.2.2.2.1⟩

/-- Object keys rewritten by the sanitizer: path separators become `_`. -/
def sanitizeKey (k : String) : String :=
  String.mk (k.data.map (fun c =>
    if c == '.' || c == '#' || c == '$' || c == '[' || c == ']' then '_' else c))

mutual

/-- The recursive sanitizeValue of sanitizeFirebaseData over body/query. -/
def sanitizeValue : JValue → JValue
  | .str s => .str (sanitizeString s)
  | .arr xs => .arr (sanitizeList xs)
  | .obj fields => .obj (sanitizeFields fields)
  | .null => .null
  | .bool b => .bool b
  | .num n => .num n

/-- sanitizeValue mapped over the elements of an array. -/
def sanitizeList : List JValue → List JValue
  | [] => []
  | v :: vs => sanitizeValue v :: sanitizeList vs

/-- sanitizeValue over entries, rewriting separator characters in keys. -/
def sanitizeFields : List (String × JValue) → List (String × JValue)
  | [] => []
  | f :: fs => (sanitizeKey f.1, sanitizeValue f.2) :: sanitizeFields fs

end

/-- Characters surviving a bounded strip pass all come from the input. -/
theorem mem_stripCIAux (pat : List Char) (fuel : Nat) :
    ∀ (s : List Char) (c : Char), c ∈ stripCIAux pat fuel s → c ∈ s := by
  induction fuel with
  | zero => intro s c hc; exact hc
  | succ n ih =>
    intro s c hc
    cases s with
    | nil => simpa [stripCIAux] using hc
    | cons a rest =>
      rw [stripCIAux] at hc
      by_cases hm : matchesCI pat (a :: rest) = true
      · rw [if_pos hm] at hc
        have h2 := ih _ _ hc
        exact List.mem_cons_of_mem a (List.drop_subset _ _ h2)
      · rw [if_neg hm] at hc
        rcases List.mem_cons.mp hc with h | h
        · rw [h]; exact List.mem_cons_self _ _
        · exact List.mem_cons_of_mem a (ih _ _ h)

/-- Characters surviving dropWhile come from the input. -/
theorem mem_dropWhile {α : Type} (p : α → Bool) :
    ∀ (s : List α) (c : α), c ∈ s.dropWhile p → c ∈ s := by
  intro s
  induction s with
  | nil => intro c hc; exact hc
  | cons a rest ih =>
    intro c hc
    rw [List.dropWhile_cons] at hc
    by_cases hp : p a = true
    · rw [if_pos hp] at hc
      exact List.mem_cons_of_mem a (ih c hc)
    · rw [if_neg hp] at hc
      exact hc

/-- Characters surviving the trim come from the input. -/
theorem mem_jsTrim (s : List Char) (c : Char) (h : c ∈ jsTrim s) : c ∈ s := by
  unfold jsTrim at h
  rw [List.mem_reverse] at h
  have h2 := mem_dropWhile _ _ _ h
  rw [List.mem_reverse] at h2
  exact mem_dropWhile _ _ _ h2

/-- No angle bracket survives the sanitizer. -/
theorem sanitizeChars_no_lt (s : List Char) : '<' ∉ sanitizeChars s := by
  intro hmem
  have h1 := mem_jsTrim _ _ hmem
  have h2 := mem_stripCIAux _ _ _ _ h1
  have h3 := mem_stripCIAux _ _ _ _ h2
  have h4 := (List.mem_filter.mp h3).2
  simp at h4

/-- A string without `<` cannot contain the literal `<script>`. -/
theorem containsSub_script_eq_false (s : List Char) (h : '<' ∉ s) :
    containsSub s (String.data ("<script>")) = false := by
  unfold containsSub
  rw [List.any_eq_false]
  intro i _
  simp only [Bool.not_eq_true]
  rw [← Bool.not_eq_true]
  intro hpre
  rw [List.isPrefixOf_iff_prefix] at hpre
  rcases hpre with ⟨t, ht⟩
  have hin : '<' ∈ s.drop i := by
    rw [← ht]
    rw [List.mem_append]
    left
    decide
  exact h (List.drop_subset _ _ hin)

/-- Counterexample for C2: the input `<script>javajavascript:script:` contains
`<script>`, yet its sanitized form still contains `javascript:` — the
single-pass deletion splices the surrounding halves into a fresh occurrence.
So the sanitizer does not guarantee absence of `javascript:`. -/
theorem claimC2_counterexample :
    containsSub (String.data ("<script>javajavascript:script:")) (String.data ("<script>")) = true
    ∧ containsSub (sanitizeChars (String.data ("<script>javajavascript:script:")))
        (String.data ("javascript:")) = true := by
  constructor <;> decide

/-- Claim C2 (amended): for every input string the sanitizer's output
contains no `<` at all, hence never the literal `<script>`; the analogous
guarantee for `javascript:` fails on crafted nested inputs. -/
theorem claimC2_no_script_tag (s : String) :
    containsSub (String.data (sanitizeString s)) (String.data ("<script>")) = false := by
  apply containsSub_script_eq_false
  exact sanitizeChars_no_lt s.data

/-- A single-entry map whose timestamps all survive the window is unchanged
by the sweep. -/
theorem sweep_single_keep (key : String) (l : List Int) (ws : Int)
    (hne : l ≠ []) (hall : ∀ t ∈ l, ws < t) :
    sweep ws [(key, l)] = [(key, l)] := by
  have hfil : l.filter (fun t => decide (ws < t)) = l := by
    rw [List.filter_eq_self]
    intro a ha
    simpa using hall a ha
  have hemp : l.isEmpty = false := by
    cases l with
    | nil => exact absurd rfl hne
    | cons a b => rfl
  simp only [sweep, List.filterMap_cons, List.filterMap_nil]
  rw [hfil, hemp]
  rfl

/-- Reading the only key of a single-entry map. -/
theorem mapGetD_single (key : String) (l : List Int) :
    mapGetD [(key, l)] key = l := by
  simp [mapGetD, List.find?]

/-- Writing the only key of a single-entry map. -/
theorem mapSet_single (key : String) (l v : List Int) :
    mapSet [(key, l)] key v = [(key, v)] := by
  simp [mapSet]

/-- A request under the limit passes and appends its instant to the key's
window. -/
theorem rateLimitStep_pass (N : Nat) (W : Int) (key : String) (l : List Int)
    (now : Int) (hne : l ≠ []) (hall : ∀ t ∈ l, now - W < t) (hlen : l.length < N) :
    rateLimitStep N W [(key, l)] key now = (RLDecision.pass, [(key, l ++ [now])]) := by
  have hfil : l.filter (fun t => decide (now - W < t)) = l := by
    rw [List.filter_eq_self]
    intro a ha
    simpa using hall a ha
  simp only [rateLimitStep, sweep_single_keep key l (now - W) hne hall,
    mapGetD_single, hfil]
  rw [if_neg (by omega)]
  rw [mapSet_single]

/-- A request at or above the limit is rejected with 429 and the retry delay
computed from the oldest surviving timestamp; the swept state is kept. -/
theorem rateLimitStep_reject (N : Nat) (W : Int) (key : String) (l : List Int)
    (now : Int) (hne : l ≠ []) (hall : ∀ t ∈ l, now - W < t) (hlen : N ≤ l.length) :
    rateLimitStep N W [(key, l)] key now
      = (RLDecision.reject 429 (jsCeil1000 (l.headD 0 + W - now)), [(key, l)]) := by
  have hfil : l.filter (fun t => decide (now - W < t)) = l := by
    rw [List.filter_eq_self]
    intro a ha
    simpa using hall a ha
  simp only [rateLimitStep, sweep_single_keep key l (now - W) hne hall,
    mapGetD_single, hfil]
  rw [if_pos hlen]

/-- The first request from a fresh limiter passes and opens the window. -/
theorem rateLimitStep_empty (N : Nat) (W : Int) (key : String) (now : Int)
    (hN : 0 < N) :
    rateLimitStep N W [] key now = (RLDecision.pass, [(key, [now])]) := by
  simp only [rateLimitStep, sweep, List.filterMap_nil, mapGetD, List.find?,
    List.filter_nil, List.length_nil]
  rw [if_neg (by omega)]
  simp [mapSet]

/-- While the window still has room and every request falls inside the first
request's window, every request passes and is appended in order. -/
theorem rateLimitRun_all_pass (N : Nat) (W : Int) (key : String) (t1 : Int) :
    ∀ (us rest : List Int),
      (∀ x ∈ rest, t1 ≤ x) →
      (∀ u ∈ us, t1 ≤ u ∧ u < t1 + W) →
      rest.length + 1 + us.length ≤ N →
      rateLimitRun N W key [(key, t1 :: rest)] us
        = (List.replicate us.length RLDecision.pass, [(key, t1 :: (rest ++ us))]) := by
  intro us
  induction us with
  | nil =>
    intro rest _ _ _
    simp [rateLimitRun]
  | cons u us ih =>
    intro rest hrest hus hlen
    have hu := hus u (List.mem_cons_self _ _)
    have hstep : rateLimitStep N W [(key, t1 :: rest)] key u
        = (RLDecision.pass, [(key, t1 :: (rest ++ [u]))]) := by
      have h1 : (t1 :: rest) ++ [u] = t1 :: (rest ++ [u]) := rfl
      rw [← h1]
      apply rateLimitStep_pass
      · exact List.cons_ne_nil _ _
      · intro t ht
        rcases List.mem_cons.mp ht with h | h
        · omega
        · have := hrest t h
          omega
      · simp only [List.length_cons] at hlen ⊢
        omega
    have hih := ih (rest ++ [u])
      (by
        intro x hx
        rcases List.mem_append.mp hx with h | h
        · exact hrest x h
        · simp at h
          omega)
      (fun v hv => hus v (List.mem_cons_of_mem _ hv))
      (by simp at hlen ⊢; omega)
    simp only [rateLimitRun, hstep, hih]
    simp [List.replicate_succ]

/-- Splitting a request sequence at any point. -/
theorem rateLimitRun_append (N : Nat) (W : Int) (key : String) :
    ∀ (xs ys : List Int) (st : RLState),
      rateLimitRun N W key st (xs ++ ys)
        = ((rateLimitRun N W key st xs).1
            ++ (rateLimitRun N W key (rateLimitRun N W key st xs).2 ys).1,
           (rateLimitRun N W key (rateLimitRun N W key st xs).2 ys).2) := by
  intro xs
  induction xs with
  | nil =>
    intro ys st
    simp [rateLimitRun]
  | cons x xs ih =>
    intro ys st
    simp only [List.cons_append, rateLimitRun, List.append_eq, ih]

/-- The JS ceiling of a positive quantity over 1000 is positive. -/
theorem jsCeil1000_pos (x : Int) (hx : 0 < x) : 0 < jsCeil1000 x := by
  unfold jsCeil1000
  omega

/-- Once the window has elapsed past the oldest stored instant, the next
request from the key passes: the sweep evicts the oldest timestamp, so at
most `N - 1` survive. -/
theorem rateLimitStep_pass_after (N : Nat) (W : Int) (key : String) (t1 : Int)
    (vs : List Int) (t' : Int)
    (hlen : vs.length + 1 = N)
    (ht1 : t1 ≤ t' - W) :
    (rateLimitStep N W [(key, t1 :: vs)] key t').1 = RLDecision.pass := by
  have hfc : (t1 :: vs).filter (fun t => decide (t' - W < t))
      = vs.filter (fun t => decide (t' - W < t)) := by
    rw [List.filter_cons_of_neg]
    simp
    omega
  simp only [rateLimitStep]
  cases hemp : (vs.filter (fun t => decide (t' - W < t))).isEmpty with
  | true =>
    have hsweep : sweep (t' - W) [(key, t1 :: vs)] = [] := by
      simp only [sweep, List.filterMap_cons, List.filterMap_nil]
      rw [hfc, hemp]
      rfl
    rw [hsweep]
    have hget : mapGetD ([] : RLState) key = [] := rfl
    rw [hget, List.filter_nil]
    rw [if_neg (by simp; omega)]
  | false =>
    have hsweep : sweep (t' - W) [(key, t1 :: vs)]
        = [(key, vs.filter (fun t => decide (t' - W < t)))] := by
      simp only [sweep, List.filterMap_cons, List.filterMap_nil]
      rw [hfc, hemp]
      rfl
    rw [hsweep, mapGetD_single]
    rw [if_neg ?hlt]
    case hlt =>
      have h1 := List.length_filter_le (fun t => decide (t' - W < t))
        (vs.filter (fun t => decide (t' - W < t)))
      have h2 := List.length_filter_le (fun t => decide (t' - W < t)) vs
      omega

/-- Claim C1: from a fresh limiter with capacity N and window W, N + 1
requests from one key inside a single window pass for the first N and are
rejected 429 on the last, with retryAfter the rounded-up seconds until the
oldest surviving timestamp leaves the window, and positive; once the window
has elapsed past that oldest timestamp, the next request passes again. -/
theorem claimC1_rate_limit_window (N : Nat) (W : Int) (key : String) (t1 : Int)
    (vs : List Int) (uN t' : Int)
    (hN : 1 ≤ N)
    (hlen : vs.length + 1 = N)
    (hvs : ∀ u ∈ vs, t1 ≤ u ∧ u < t1 + W)
    (huN1 : t1 ≤ uN) (huN2 : uN < t1 + W)
    (ht' : t1 + W ≤ t') :
    (rateLimitRun N W key [] (t1 :: (vs ++ [uN]))).1
      = List.replicate N RLDecision.pass
        ++ [RLDecision.reject 429 (jsCeil1000 (t1 + W - uN))]
    ∧ 0 < jsCeil1000 (t1 + W - uN)
    ∧ (rateLimitStep N W (rateLimitRun N W key [] (t1 :: (vs ++ [uN]))).2 key t').1
      = RLDecision.pass := by
  have hfirst : rateLimitStep N W [] key t1 = (RLDecision.pass, [(key, [t1])]) :=
    rateLimitStep_empty N W key t1 (by omega)
  have hmid : rateLimitRun N W key [(key, [t1])] vs
      = (List.replicate vs.length RLDecision.pass, [(key, t1 :: vs)]) := by
    have h := rateLimitRun_all_pass N W key t1 vs []
      (by intro x hx; simp at hx) hvs (by simp; omega)
    simpa using h
  have hrej : rateLimitStep N W [(key, t1 :: vs)] key uN
      = (RLDecision.reject 429 (jsCeil1000 (t1 + W - uN)), [(key, t1 :: vs)]) := by
    have h : jsCeil1000 (t1 + W - uN) = jsCeil1000 ((t1 :: vs).headD 0 + W - uN) := rfl
    rw [h]
    apply rateLimitStep_reject
    · exact List.cons_ne_nil _ _
    · intro t ht
      rcases List.mem_cons.mp ht with h | h
      · omega
      · have := hvs t h
        omega
    · simp
      omega
  have h1 : rateLimitRun N W key [] (t1 :: (vs ++ [uN]))
      = (RLDecision.pass :: (rateLimitRun N W key [(key, [t1])] (vs ++ [uN])).1,
         (rateLimitRun N W key [(key, [t1])] (vs ++ [uN])).2) := by
    simp only [rateLimitRun, hfirst]
  have h3 : rateLimitRun N W key [(key, t1 :: vs)] [uN]
      = ([RLDecision.reject 429 (jsCeil1000 (t1 + W - uN))], [(key, t1 :: vs)]) := by
    simp only [rateLimitRun, hrej]
  have h2 : rateLimitRun N W key [(key, [t1])] (vs ++ [uN])
      = (List.replicate vs.length RLDecision.pass
          ++ [RLDecision.reject 429 (jsCeil1000 (t1 + W - uN))],
         [(key, t1 :: vs)]) := by
    rw [rateLimitRun_append, hmid, h3]
  refine ⟨?_, jsCeil1000_pos _ (by omega), ?_⟩
  · rw [h1, h2]
    show RLDecision.pass :: (List.replicate vs.length RLDecision.pass ++ _) = _
    rw [← hlen, List.replicate_succ, List.cons_append]
  · rw [h1, h2]
    exact rateLimitStep_pass_after N W key t1 vs t' hlen (by omega)

/-- Witness for C1 with N = 2, a 1000 ms window, requests at 0, 10 and 20 ms
and a retry at 1000 ms. -/
theorem claimC1_witness :
    (rateLimitRun 2 1000 ("k") [] (0 :: ([10] ++ [20]))).1
      = List.replicate 2 RLDecision.pass
        ++ [RLDecision.reject 429 (jsCeil1000 (0 + 1000 - 20))]
    ∧ 0 < jsCeil1000 (0 + 1000 - 20)
    ∧ (rateLimitStep 2 1000 (rateLimitRun 2 1000 ("k") [] (0 :: ([10] ++ [20]))).2
        ("k") 1000).1 = RLDecision.pass :=
  claimC1_rate_limit_window 2 1000 ("k") 0 [10] 20 1000 (by decide) (by decide)
    (by decide) (by decide) (by decide) (by decide)
